import Mathlib

/-!
# fx_example: todo-list handlers and the echo handler

A shallow embedding of `src/todolist.go` (the four gin handlers over a gorm
handle) and `src/modulefx.go` (the echo handler `User.ServeHTTP`).

* The persistence handle `*gorm.DB` is a record of the four call shapes the
  handlers use; the handlers are written once, over any such record.
* `NewDB` is the handle the program really opens: gorm over a sqlite table of
  `TodoItemModel` rows.
* A handler maps a request and a store state to the response it writes, the
  store state it leaves and the persistence calls it made, in order.
-/

set_option autoImplicit false

namespace FxExample

deriving instance DecidableEq for Except

/-! ## Data model (`src/todolist.go`, lines 16-20) -/

/-- The row type `TodoItemModel`: `ID` is the primary key, and none of the
fields carries a `binding` tag. -/
structure TodoItemModel where
  ID : Int
  Title : String
  Completed : Bool
  deriving DecidableEq, Repr

/-- Largest value of Go's `int` on the 64-bit targets the program runs on. -/
def maxInt : Int := 2 ^ 63 - 1

/-- Smallest value of Go's `int`. -/
def minInt : Int := -(2 ^ 63)

/-! ## `strconv.Atoi` -/

/-- The two errors of package `strconv`: `ErrSyntax` and `ErrRange`. -/
inductive StrconvErr where
  | ErrSyntax
  | ErrRange
  deriving DecidableEq, Repr

/-- The text of a `strconv` error. -/
def StrconvErr.Error : StrconvErr → String
  | .ErrSyntax => "invalid syntax"
  | .ErrRange => "value out of range"

/-- A `*strconv.NumError`: the failing function, the input, the cause. -/
structure NumError where
  Func : String
  Num : String
  Err : StrconvErr
  deriving DecidableEq, Repr

/-- The sixteen hexadecimal digits, lower case. -/
def hexDigit (n : Nat) : Char := "0123456789abcdef".data.getD n '0'

/-- How `strconv.Quote` writes one character: a backslash before a double
quote and a backslash, the named escapes for the control characters that have
one, `\x` and two hexadecimal digits for the other ASCII control characters,
and the character itself otherwise.  (Beyond ASCII, Go also escapes the
characters that are not printable; they are kept as they are here.) -/
def quoteChar (c : Char) : String :=
  if c.toNat = 34 then "\\\""
  else if c.toNat = 92 then "\\\\"
  else if c.toNat = 7 then "\\a"
  else if c.toNat = 8 then "\\b"
  else if c.toNat = 12 then "\\f"
  else if c.toNat = 10 then "\\n"
  else if c.toNat = 13 then "\\r"
  else if c.toNat = 9 then "\\t"
  else if c.toNat = 11 then "\\v"
  else if c.toNat < 32 ∨ c.toNat = 127 then
    "\\x" ++ String.mk [hexDigit (c.toNat / 16), hexDigit (c.toNat % 16)]
  else String.mk [c]

/-- Go's `strconv.Quote`: the text between double quotes, each character
written by `quoteChar`. -/
def Quote (s : String) : String :=
  "\"" ++ String.join (s.data.map quoteChar) ++ "\""

/-- The method `(*NumError).Error`: the message of the error. -/
def NumError.Error (e : NumError) : String :=
  "strconv." ++ e.Func ++ ": parsing " ++ Quote e.Num ++ ": " ++ e.Err.Error

/-- The digit loop of `strconv.ParseUint(s, 10, 64)`: left to right, a
character that is not a decimal digit is a syntax error, an accumulator that
leaves the 64-bit unsigned range is a range error. -/
def parseUintLoop : List Char → Nat → Except StrconvErr Nat
  | [], n => .ok n
  | c :: cs, n =>
    if c.isDigit then
      if n ≥ (2 ^ 64 - 1) / 10 + 1 then .error .ErrRange
      else
        let n1 := n * 10 + (c.toNat - 48)
        if n1 > 2 ^ 64 - 1 then .error .ErrRange else parseUintLoop cs n1
    else .error .ErrSyntax

/-- Go's `strconv.ParseUint(s, 10, 64)` on the characters of `s`. -/
def ParseUint (s : List Char) : Except StrconvErr Nat :=
  match s with
  | [] => .error .ErrSyntax
  | _ => parseUintLoop s 0

/-- Go's `strconv.ParseInt(s, 10, 0)`: an optional sign, then `ParseUint`, then the
check against the signed 64-bit range. -/
def ParseInt (s : List Char) : Except StrconvErr Int :=
  match s with
  | [] => .error .ErrSyntax
  | c :: cs =>
    let neg := c == '-'
    let digits := if c == '+' || c == '-' then cs else c :: cs
    match ParseUint digits with
    | .error .ErrSyntax => .error .ErrSyntax
    | .error .ErrRange => .error .ErrRange
    | .ok un =>
      if !neg && un ≥ 2 ^ 63 then .error .ErrRange
      else if neg && un > 2 ^ 63 then .error .ErrRange
      else .ok (if neg then -(un : Int) else (un : Int))

/-- Go's `strconv.Atoi`: the decimal integer `s` denotes, or a `NumError` naming
`Atoi` and the input.  (Go's fast path for short inputs returns the same
results as the `ParseInt` path modelled here.) -/
def Atoi (s : String) : Except NumError Int :=
  match ParseInt s.data with
  | .ok n => .ok n
  | .error e => .error ⟨"Atoi", s, e⟩

/-! ## Requests and JSON binding -/

/-- What a JSON object body provides for the three keys of `TodoItemModel`:
`none` for a key that is absent (or `null`), `some v` for a key given the
well-typed value `v`. -/
structure Payload where
  id : Option Int
  title : Option String
  completed : Option Bool
  deriving DecidableEq, Repr

/-- A request body as the JSON binding sees it: `invalid err` is a body the
decoder rejects with the message `err` (empty or malformed text, a value that
is not an object, a key given a value of the wrong type); `object p` is a JSON
object that provides the fields of `p`. -/
inductive RawBody where
  | invalid (err : String)
  | object (p : Payload)
  deriving DecidableEq, Repr

/-- The `Content-Type` of a request, as far as `c.ShouldBind` tells types
apart.  `json` is `application/json`.  `plain` is a request without the header
or with a type gin has no binding for (such as `text/plain`), and without a
query string.  `other bound` is a type with a binding of its own (XML, YAML,
form data and so on), `bound` being what that binding makes of the request. -/
inductive ContentType where
  | json
  | plain
  | other (bound : Except String TodoItemModel)
  deriving DecidableEq, Repr

/-- An incoming request: the path parameter `c.Param("id")`, the body as the
JSON decoder sees it, and the content type. -/
structure Request where
  id : String
  body : RawBody
  contentType : ContentType
  deriving DecidableEq, Repr

/-- The call `c.ShouldBindJSON(&v)` for `var v TodoItemModel`: decoding starts from the
zero value, so a key the body does not provide leaves `0`, `""` or `false`;
since no field has a `binding` tag the validation step accepts every decoded
value.  A number outside the range of `int` is a decoding error. -/
def ShouldBindJSON (b : RawBody) : Except String TodoItemModel :=
  match b with
  | .invalid err => .error err
  | .object p =>
    let id := p.id.getD 0
    if id < minInt ∨ maxInt < id then
      .error ("json: cannot unmarshal number " ++ toString id ++
        " into Go struct field TodoItemModel.id of type int")
    else .ok ⟨id, p.title.getD "", p.completed.getD false⟩

/-- The call `c.ShouldBind(&v)` for `var v TodoItemModel` in a PUT request:
gin chooses the binding from the content type.  For `application/json` it is
the JSON binding.  For a type without a binding of its own it is the form
binding, which never reads a body that is not form data: with no query string
nothing is mapped, `v` stays the zero value and the binding succeeds. -/
def ShouldBind (r : Request) : Except String TodoItemModel :=
  match r.contentType with
  | .json => ShouldBindJSON r.body
  | .plain => .ok ⟨0, "", false⟩
  | .other bound => bound

/-! ## Responses -/

/-- A value stored under a key of a `gin.H` map. -/
inductive Value where
  | str (s : String)
  | bool (b : Bool)
  | item (t : TodoItemModel)
  deriving DecidableEq, Repr

/-- What `c.JSON` serialises: a `gin.H` object (its keys and values) or the
slice of rows `GetTodoItems` passes. -/
inductive Rendered where
  | H (fields : List (String × Value))
  | slice (todos : List TodoItemModel)
  deriving DecidableEq, Repr

/-- The constant `http.StatusOK`. -/
def StatusOK : Nat := 200
/-- The constant `http.StatusBadRequest`. -/
def StatusBadRequest : Nat := 400
/-- The constant `http.StatusNotFound`. -/
def StatusNotFound : Nat := 404
/-- The constant `http.StatusInternalServerError`. -/
def StatusInternalServerError : Nat := 500

/-! ## The persistence handle -/

/-- The result of one gorm call: the store it leaves, the value written back
through the pointer argument, and the `Error` field of the returned handle. -/
structure Result (σ α : Type) where
  db : σ
  value : α
  Error : Option String

/-- The handle `db *gorm.DB` as the handlers use it, over a store state `σ`:
`Find` is `db.Find(&todos)`, `Create v` is `db.Create(&v)`, `Updates id v` is
`db.Where("id = ?", id).Updates(&v)` and `Delete id v` is
`db.Where("id = ?", id).Delete(&v)`. -/
structure DB (σ : Type) where
  Find : σ → Result σ (List TodoItemModel)
  Create : TodoItemModel → σ → Result σ TodoItemModel
  Updates : Int → TodoItemModel → σ → Result σ Unit
  Delete : Int → TodoItemModel → σ → Result σ Unit

/-- A persistence call a handler made. -/
inductive Call where
  | Find
  | Create (v : TodoItemModel)
  | Updates (id : Int) (v : TodoItemModel)
  | Delete (id : Int) (v : TodoItemModel)
  deriving DecidableEq, Repr

/-- What running a handler leaves: the status and body given to `c.JSON`, the
store state, and the persistence calls made, in order. -/
structure Outcome (σ : Type) where
  status : Nat
  body : Rendered
  db : σ
  calls : List Call

/-! ## The handlers (`src/todolist.go`, lines 64-146) -/

/-- Handler `GetTodoItems` (lines 64-70): runs `db.Find(&todos)` and answers
200 with `todos`; the handle that `Find` returns, and with it the `Error`, is
dropped. -/
def GetTodoItems {σ : Type} (db : DB σ) (_r : Request) (s : σ) : Outcome σ :=
  let res := db.Find s
  ⟨StatusOK, .slice res.value, res.db, [.Find]⟩

/-- Handler `CreateTodoItem` (lines 72-93): bind the body or answer 400; copy
the three fields into `todolist`; `db.Create(&todolist)`, answering 500 when
its `Error` is set and 200 with `todolist` under `data` otherwise. -/
def CreateTodoItem {σ : Type} (db : DB σ) (r : Request) (s : σ) : Outcome σ :=
  match ShouldBindJSON r.body with
  | .error err => ⟨StatusBadRequest, .H [("error", .str err)], s, []⟩
  | .ok input =>
    let todolist : TodoItemModel := ⟨input.ID, input.Title, input.Completed⟩
    let res := db.Create todolist s
    match res.Error with
    | some _ =>
      ⟨StatusInternalServerError, .H [("error", .str "Failed to create todo item")], res.db,
        [.Create todolist]⟩
    | none => ⟨StatusOK, .H [("data", .item res.value)], res.db, [.Create todolist]⟩

/-- Handler `UpdateTodoItem` (lines 95-118): parse the path id or answer 400;
bind the body or answer 400; `db.Where("id = ?", id).Updates(&dataItem)`,
answering 404 with the error text when its `Error` is set and 200 with `true`
under `data` otherwise. -/
def UpdateTodoItem {σ : Type} (db : DB σ) (r : Request) (s : σ) : Outcome σ :=
  match Atoi r.id with
  | .error err => ⟨StatusBadRequest, .H [("error", .str err.Error)], s, []⟩
  | .ok id =>
    match ShouldBind r with
    | .error err => ⟨StatusBadRequest, .H [("error", .str err)], s, []⟩
    | .ok dataItem =>
      let res := db.Updates id dataItem s
      match res.Error with
      | some err => ⟨StatusNotFound, .H [("error", .str err)], res.db, [.Updates id dataItem]⟩
      | none => ⟨StatusOK, .H [("data", .bool true)], res.db, [.Updates id dataItem]⟩

/-- Handler `DeleteTodoItem` (lines 120-146): parse the path id or answer 400;
bind the body or answer 400; `db.Where("id = ?", id).Delete(&item)`, answering
500 when its `Error` is set and 200 with the message otherwise. -/
def DeleteTodoItem {σ : Type} (db : DB σ) (r : Request) (s : σ) : Outcome σ :=
  match Atoi r.id with
  | .error err => ⟨StatusBadRequest, .H [("error", .str err.Error)], s, []⟩
  | .ok id =>
    match ShouldBindJSON r.body with
    | .error err => ⟨StatusBadRequest, .H [("error", .str err)], s, []⟩
    | .ok item =>
      let res := db.Delete id item s
      match res.Error with
      | some _ =>
        ⟨StatusInternalServerError, .H [("error", .str "Failed to delete")], res.db,
          [.Delete id item]⟩
      | none =>
        ⟨StatusOK, .H [("message", .str "Todo item deleted successfully")], res.db,
          [.Delete id item]⟩

/-- A `gin.H` object whose only key is `"error"`, holding a string. -/
def isErrorObject : Rendered → Bool
  | .H [("error", .str _)] => true
  | _ => false

/-! ## The handle the program opens (`NewDB`, `src/todolist.go`, lines 32-39)

`gorm.Open(sqlite.Open("todo.db"))` followed by `AutoMigrate(&TodoItemModel{})`
gives a handle on one sqlite table whose `id` column is
`integer PRIMARY KEY AUTOINCREMENT`.  The four definitions below are the
documented behaviour of gorm and sqlite for the call shapes of the handlers. -/

/-- The table: its rows, and sqlite's record of the largest id the table has
ever given out (the `sqlite_sequence` entry of an AUTOINCREMENT column). -/
structure Store where
  rows : List TodoItemModel
  seq : Nat
  deriving DecidableEq, Repr

/-- Whether some row has the primary key `id`. -/
def hasID (rows : List TodoItemModel) (id : Int) : Bool :=
  rows.any fun r => r.ID == id

/-- The largest id among the rows, and `0` when none is positive. -/
def largestID : List TodoItemModel → Int
  | [] => 0
  | r :: rs => max r.ID (largestID rs)

/-- The id sqlite gives a row inserted without one: one more than the largest
id the table holds or has ever given out. -/
def nextID (s : Store) : Int := max (s.seq : Int) (largestID s.rows) + 1

/-- The call `db.Find(&todos)`: `SELECT * FROM todo_item_models`. -/
def Store.Find (s : Store) : Result Store (List TodoItemModel) :=
  ⟨s, s.rows, none⟩

/-- The call `db.Create(&v)`.  A zero `ID` is left out of the INSERT, sqlite
assigns `nextID` and gorm writes it back into `v`; the insert fails when the
id range is exhausted.  A non-zero `ID` is inserted as given and fails on a
primary key that is already taken.  `Title` and `Completed` are inserted as
they are, zero values included. -/
def Store.Create (v : TodoItemModel) (s : Store) : Result Store TodoItemModel :=
  if v.ID = 0 then
    let id := nextID s
    if maxInt < id then ⟨s, v, some "database or disk is full"⟩
    else
      let row : TodoItemModel := ⟨id, v.Title, v.Completed⟩
      ⟨⟨s.rows ++ [row], id.toNat⟩, row, none⟩
  else if hasID s.rows v.ID then
    ⟨s, v, some "UNIQUE constraint failed: todo_item_models.id"⟩
  else ⟨⟨s.rows ++ [v], max s.seq v.ID.toNat⟩, v, none⟩

/-- The rows a statement `db.Where("id = ?", id)` run on the struct `v`
selects.  `v` is both the model and the value of the statement, so gorm adds
its primary key to the conditions when that key is not zero: the row must have
the id `id`, and the id `v.ID` as well unless `v.ID` is `0`. -/
def selects (id : Int) (v : TodoItemModel) (r : TodoItemModel) : Bool :=
  r.ID == id && (v.ID == 0 || r.ID == v.ID)

/-- The SET clause gorm builds from the struct `v`: only fields whose value is
not the zero value of their type are assigned, and the primary key never is. -/
def assign (v : TodoItemModel) (r : TodoItemModel) : TodoItemModel :=
  ⟨r.ID, if v.Title = "" then r.Title else v.Title, if v.Completed then true else r.Completed⟩

/-- The call `db.Where("id = ?", id).Updates(&v)`: the selected rows get the
non-zero fields of `v`.  No row selected, or no field to assign, is not an
error. -/
def Store.Updates (id : Int) (v : TodoItemModel) (s : Store) : Result Store Unit :=
  ⟨⟨s.rows.map fun r => if selects id v r then assign v r else r, s.seq⟩, (), none⟩

/-- The call `db.Where("id = ?", id).Delete(&v)`: the selected rows are
removed.  No row selected is not an error. -/
def Store.Delete (id : Int) (v : TodoItemModel) (s : Store) : Result Store Unit :=
  ⟨⟨s.rows.filter fun r => !selects id v r, s.seq⟩, (), none⟩

/-- The handle `NewDB` returns. -/
def NewDB : DB Store := ⟨Store.Find, Store.Create, Store.Updates, Store.Delete⟩

/-- A handle whose every call fails with `msg` and changes nothing: the
database file has become unreadable or is locked. -/
def failingDB (msg : String) : DB Store :=
  ⟨fun s => ⟨s, [], some msg⟩, fun v s => ⟨s, v, some msg⟩,
   fun _ _ s => ⟨s, (), some msg⟩, fun _ _ s => ⟨s, (), some msg⟩⟩

/-! ## The echo handler (`src/modulefx.go`, lines 14-45) -/

/-- A byte of a request or response body. -/
abbrev Byte := Nat

/-- The request body `r.Body` as an `io.Reader`: `pending` lists what the
coming `Read` calls deliver, one entry per call, and `fail` is how the stream
ends once they are used up: `none` for `io.EOF`, `some msg` for a read error.
How the bytes are split over the calls changes neither what `io.Copy` writes
nor what `io.ReadAll` returns. -/
structure Body where
  pending : List (List Byte)
  fail : Option String
  deriving DecidableEq, Repr

/-- The `http.ResponseWriter`: the status line once it is committed, the body
bytes written so far, and `broken`, the error every write to the connection
returns when the client is gone. -/
structure ResponseWriter where
  wroteHeader : Option Nat
  body : List Byte
  broken : Option String
  deriving DecidableEq, Repr

/-- The call `w.WriteHeader(code)`: the first call commits the status, later ones are
ignored. -/
def ResponseWriter.WriteHeader (w : ResponseWriter) (code : Nat) : ResponseWriter :=
  match w.wroteHeader with
  | some _ => w
  | none => ⟨some code, w.body, w.broken⟩

/-- The call `w.Write(p)`: commits status 200 when no status is committed yet, then
appends `p`, or returns the connection's error. -/
def ResponseWriter.Write (w : ResponseWriter) (p : List Byte) :
    ResponseWriter × Option String :=
  let w1 := w.WriteHeader StatusOK
  match w1.broken with
  | some e => (w1, some e)
  | none => (⟨w1.wroteHeader, w1.body ++ p, w1.broken⟩, none)

/-- The status the client receives: the committed one, or 200 when the
handler returns without having written anything. -/
def ResponseWriter.status (w : ResponseWriter) : Nat := w.wroteHeader.getD StatusOK

/-- Go's `io.Copy(w, r.Body)`: reads until the stream ends and writes every
non-empty read; stops at the first write error or read error.  Returns the
writer, what is left of the body, and the error (`none` at `io.EOF`). -/
def Copy (w : ResponseWriter) : List (List Byte) → Option String →
    ResponseWriter × Body × Option String
  | [], fail => (w, ⟨[], fail⟩, fail)
  | c :: cs, fail =>
    if c = [] then Copy w cs fail
    else
      match w.Write c with
      | (w1, some e) => (w1, ⟨cs, fail⟩, some e)
      | (w1, none) => Copy w1 cs fail

/-- Go's `io.ReadAll(r.Body)`: everything the body still delivers, and the error
(`none` at `io.EOF`). -/
def ReadAll (b : Body) : Body × List Byte × Option String :=
  (⟨[], b.fail⟩, b.pending.flatten, b.fail)

/-- Go's `http.Error(w, msg, code)`: commits `code` when no status is committed
yet and writes `msg` followed by a newline. -/
def Error (w : ResponseWriter) (msg : List Byte) (code : Nat) : ResponseWriter :=
  ((w.WriteHeader code).Write (msg ++ [10])).1

/-- An entry of the zap logger: `Warn` or `Error`, with message and cause. -/
inductive LogEntry where
  | Warn (msg : String) (cause : String)
  | Error (msg : String) (cause : String)
  deriving DecidableEq, Repr

/-- The bytes of the text `Internal server error`. -/
def internalServerError : List Byte :=
  [73, 110, 116, 101, 114, 110, 97, 108, 32, 115, 101, 114, 118, 101, 114, 32, 101, 114, 114,
    111, 114]

/-- What `ServeHTTP` leaves: the writer, the request body, the log. -/
structure Served where
  w : ResponseWriter
  body : Body
  log : List LogEntry
  deriving DecidableEq, Repr

/-- The method `(*User).Pattern` (lines 29-31). -/
def Pattern : String := "/user"

/-- The method `(*User).ServeHTTP` (lines 34-45): copy the request body to the response, warn when the
copy fails, then read what is left of the body and answer 500 when that read
fails. -/
def ServeHTTP (w : ResponseWriter) (r : Body) : Served :=
  match Copy w r.pending r.fail with
  | (w1, r1, copyErr) =>
    let log1 := match copyErr with
      | some e => [LogEntry.Warn "Failed to handle request" e]
      | none => []
    match ReadAll r1 with
    | (r2, _, some e) =>
      ⟨Error w1 internalServerError StatusInternalServerError, r2,
        log1 ++ [LogEntry.Error "Failed to read request" e]⟩
    | (r2, _, none) => ⟨w1, r2, log1⟩

/-- The bytes of the text `hello`. -/
def hello : List Byte := [104, 101, 108, 108, 111]

/-! ## Theorems -/

/-- C1: when `strconv.Atoi` rejects the path parameter, `UpdateTodoItem` and
`DeleteTodoItem` answer 400 with an error object, make no persistence call and
leave the store as it was, whatever the handle and the body are. -/
theorem bad_id_never_reaches_persistence {σ : Type} (db : DB σ) (r : Request) (s : σ)
    (e : NumError) (h : Atoi r.id = .error e) :
    ((UpdateTodoItem db r s).status = 400 ∧
      (UpdateTodoItem db r s).body = .H [("error", .str e.Error)] ∧
      (UpdateTodoItem db r s).calls = [] ∧ (UpdateTodoItem db r s).db = s) ∧
    ((DeleteTodoItem db r s).status = 400 ∧
      (DeleteTodoItem db r s).body = .H [("error", .str e.Error)] ∧
      (DeleteTodoItem db r s).calls = [] ∧ (DeleteTodoItem db r s).db = s) := by
  simp [UpdateTodoItem, DeleteTodoItem, h, StatusBadRequest]

/-- Witness for C1: the path id `abc` with a well-formed body. -/
theorem bad_id_never_reaches_persistence_witness :
    Atoi "abc" = .error ⟨"Atoi", "abc", .ErrSyntax⟩ ∧
    ((UpdateTodoItem NewDB ⟨"abc", .object ⟨none, some "t", some true⟩, .json⟩
        ⟨[⟨1, "a", false⟩], 1⟩).status = 400 ∧
      (UpdateTodoItem NewDB ⟨"abc", .object ⟨none, some "t", some true⟩, .json⟩
        ⟨[⟨1, "a", false⟩], 1⟩).body =
        .H [("error", .str (NumError.Error ⟨"Atoi", "abc", .ErrSyntax⟩))] ∧
      (UpdateTodoItem NewDB ⟨"abc", .object ⟨none, some "t", some true⟩, .json⟩
        ⟨[⟨1, "a", false⟩], 1⟩).calls = [] ∧
      (UpdateTodoItem NewDB ⟨"abc", .object ⟨none, some "t", some true⟩, .json⟩
        ⟨[⟨1, "a", false⟩], 1⟩).db = ⟨[⟨1, "a", false⟩], 1⟩) ∧
    ((DeleteTodoItem NewDB ⟨"abc", .object ⟨none, some "t", some true⟩, .json⟩
        ⟨[⟨1, "a", false⟩], 1⟩).status = 400 ∧
      (DeleteTodoItem NewDB ⟨"abc", .object ⟨none, some "t", some true⟩, .json⟩
        ⟨[⟨1, "a", false⟩], 1⟩).body =
        .H [("error", .str (NumError.Error ⟨"Atoi", "abc", .ErrSyntax⟩))] ∧
      (DeleteTodoItem NewDB ⟨"abc", .object ⟨none, some "t", some true⟩, .json⟩
        ⟨[⟨1, "a", false⟩], 1⟩).calls = [] ∧
      (DeleteTodoItem NewDB ⟨"abc", .object ⟨none, some "t", some true⟩, .json⟩
        ⟨[⟨1, "a", false⟩], 1⟩).db = ⟨[⟨1, "a", false⟩], 1⟩) :=
  ⟨by decide,
    bad_id_never_reaches_persistence NewDB ⟨"abc", .object ⟨none, some "t", some true⟩, .json⟩
      ⟨[⟨1, "a", false⟩], 1⟩ ⟨"Atoi", "abc", .ErrSyntax⟩ (by decide)⟩

/-- C2: the failure statuses of the create, update and delete handlers.  Each
handler answers 200 or one of its two failure statuses; every answer other
than 200 is an object with the single key `error` holding a string; 400 is
given exactly when the path id or the body binding is rejected; a failed
persistence call gives 500 in create and delete and 404 in update, and these
statuses are given for nothing else. -/
theorem failure_status_taxonomy {σ : Type} (db : DB σ) (r : Request) (s : σ) :
    (((CreateTodoItem db r s).status = 200 ∨ (CreateTodoItem db r s).status = 400 ∨
        (CreateTodoItem db r s).status = 500) ∧
      ((CreateTodoItem db r s).status ≠ 200 →
        isErrorObject (CreateTodoItem db r s).body = true) ∧
      ((CreateTodoItem db r s).status = 400 ↔ ∃ e, ShouldBindJSON r.body = .error e) ∧
      ((CreateTodoItem db r s).status = 500 ↔
        ∃ v e, ShouldBindJSON r.body = .ok v ∧ (db.Create v s).Error = some e)) ∧
    (((UpdateTodoItem db r s).status = 200 ∨ (UpdateTodoItem db r s).status = 400 ∨
        (UpdateTodoItem db r s).status = 404) ∧
      ((UpdateTodoItem db r s).status ≠ 200 →
        isErrorObject (UpdateTodoItem db r s).body = true) ∧
      ((UpdateTodoItem db r s).status = 400 ↔
        (∃ e, Atoi r.id = .error e) ∨ ∃ e, ShouldBind r = .error e) ∧
      ((UpdateTodoItem db r s).status = 404 ↔
        ∃ id v e, Atoi r.id = .ok id ∧ ShouldBind r = .ok v ∧
          (db.Updates id v s).Error = some e)) ∧
    (((DeleteTodoItem db r s).status = 200 ∨ (DeleteTodoItem db r s).status = 400 ∨
        (DeleteTodoItem db r s).status = 500) ∧
      ((DeleteTodoItem db r s).status ≠ 200 →
        isErrorObject (DeleteTodoItem db r s).body = true) ∧
      ((DeleteTodoItem db r s).status = 400 ↔
        (∃ e, Atoi r.id = .error e) ∨ ∃ e, ShouldBindJSON r.body = .error e) ∧
      ((DeleteTodoItem db r s).status = 500 ↔
        ∃ id v e, Atoi r.id = .ok id ∧ ShouldBindJSON r.body = .ok v ∧
          (db.Delete id v s).Error = some e)) := by
  refine ⟨?_, ?_, ?_⟩
  · unfold CreateTodoItem
    cases hb : ShouldBindJSON r.body with
    | error e => simp [StatusBadRequest, isErrorObject]
    | ok v =>
      cases hc : (db.Create ⟨v.ID, v.Title, v.Completed⟩ s).Error <;>
        simp_all [StatusOK, StatusInternalServerError, isErrorObject]
  · unfold UpdateTodoItem
    cases ha : Atoi r.id with
    | error e => simp [StatusBadRequest, isErrorObject]
    | ok id =>
      cases hb : ShouldBind r with
      | error e => simp [StatusBadRequest, isErrorObject]
      | ok v =>
        cases hc : (db.Updates id v s).Error <;>
          simp_all [StatusOK, StatusNotFound, isErrorObject]
  · unfold DeleteTodoItem
    cases ha : Atoi r.id with
    | error e => simp [StatusBadRequest, isErrorObject]
    | ok id =>
      cases hb : ShouldBindJSON r.body with
      | error e => simp [StatusBadRequest, isErrorObject]
      | ok v =>
        cases hc : (db.Delete id v s).Error <;>
          simp_all [StatusOK, StatusInternalServerError, isErrorObject]

/-- C8: at a handle whose find fails with `database is locked`,
`GetTodoItems` calls `Find`, drops its error and answers 200 with the slice,
not an error object. -/
theorem list_answers_200_when_find_fails :
    ((failingDB "database is locked").Find ⟨[⟨1, "a", false⟩], 1⟩).Error =
      some "database is locked" ∧
    (GetTodoItems (failingDB "database is locked") ⟨"", .invalid "", .json⟩
      ⟨[⟨1, "a", false⟩], 1⟩).status = 200 ∧
    (GetTodoItems (failingDB "database is locked") ⟨"", .invalid "", .json⟩
      ⟨[⟨1, "a", false⟩], 1⟩).body = .slice [] ∧
    (GetTodoItems (failingDB "database is locked") ⟨"", .invalid "", .json⟩
      ⟨[⟨1, "a", false⟩], 1⟩).calls = [.Find] := by
  decide

/-- Handler `GetTodoItems` answers 200 with what `Find` left in the slice, whatever
the `Error` of the find is. -/
theorem GetTodoItems_always_200 {σ : Type} (db : DB σ) (r : Request) (s : σ) :
    (GetTodoItems db r s).status = 200 ∧
    (GetTodoItems db r s).body = .slice (db.Find s).value ∧
    isErrorObject (GetTodoItems db r s).body = false := by
  simp [GetTodoItems, StatusOK, isErrorObject]

/-! ### Facts about the table -/

theorem hasID_eq_true_iff (rows : List TodoItemModel) (id : Int) :
    hasID rows id = true ↔ ∃ r ∈ rows, r.ID = id := by
  simp [hasID]

theorem hasID_eq_false_iff (rows : List TodoItemModel) (id : Int) :
    hasID rows id = false ↔ ∀ r ∈ rows, r.ID ≠ id := by
  simp [hasID]

theorem le_largestID (rows : List TodoItemModel) (r : TodoItemModel) (h : r ∈ rows) :
    r.ID ≤ largestID rows := by
  induction rows with
  | nil => simp at h
  | cons x xs ih =>
    simp only [largestID]
    rcases List.mem_cons.mp h with rfl | h
    · exact le_max_left _ _
    · exact le_trans (ih h) (le_max_right _ _)

theorem largestID_nonneg (rows : List TodoItemModel) : 0 ≤ largestID rows := by
  induction rows with
  | nil => simp [largestID]
  | cons x xs ih => exact le_trans ih (le_max_right _ _)

theorem nextID_pos (s : Store) : 0 < nextID s := by
  have := largestID_nonneg s.rows
  unfold nextID
  omega

theorem nextID_fresh (s : Store) : ∀ r ∈ s.rows, r.ID ≠ nextID s := by
  intro r hr
  have := le_largestID s.rows r hr
  unfold nextID
  omega

/-- With a body id that is zero or the path id, the statement selects exactly
the rows whose id is the path id. -/
theorem selects_eq_of_agree (id : Int) (v r : TodoItemModel) (h : v.ID = 0 ∨ v.ID = id) :
    selects id v r = (r.ID == id) := by
  unfold selects
  rcases h with h | h
  · simp [h]
  · by_cases hr : r.ID = id <;> simp [h, hr]

/-- What `ShouldBindJSON` gives for an object body. -/
theorem ShouldBindJSON_object (p : Payload) (v : TodoItemModel)
    (h : ShouldBindJSON (.object p) = .ok v) :
    v = ⟨p.id.getD 0, p.title.getD "", p.completed.getD false⟩ := by
  unfold ShouldBindJSON at h
  simp only at h
  split at h
  · cases h
  · cases h; rfl

/-- A successful `Create` appends one row: the value written back.  Its id is
not zero and was not in the table, it is the given id when that is not zero,
and title and completed are the given ones. -/
theorem Create_ok (v : TodoItemModel) (s : Store) (h : (Store.Create v s).Error = none) :
    (Store.Create v s).db.rows = s.rows ++ [(Store.Create v s).value] ∧
    (Store.Create v s).value.ID ≠ 0 ∧
    (v.ID ≠ 0 → (Store.Create v s).value.ID = v.ID) ∧
    (∀ r ∈ s.rows, r.ID ≠ (Store.Create v s).value.ID) ∧
    (Store.Create v s).value.Title = v.Title ∧
    (Store.Create v s).value.Completed = v.Completed := by
  unfold Store.Create at h ⊢
  by_cases h0 : v.ID = 0
  · simp only [h0, if_true] at h ⊢
    by_cases hfull : maxInt < nextID s
    · simp [hfull] at h
    · rw [if_neg hfull]
      exact ⟨rfl, ne_of_gt (nextID_pos s), fun hne => absurd rfl hne, nextID_fresh s, rfl,
        rfl⟩
  · simp only [h0, if_false] at h ⊢
    by_cases hdup : hasID s.rows v.ID = true
    · simp [hdup] at h
    · rw [if_neg hdup]
      exact ⟨rfl, h0, fun _ => rfl,
        (hasID_eq_false_iff s.rows v.ID).mp (by simpa using hdup), rfl, rfl⟩

/-- What `CreateTodoItem` leaves once the body is bound to `v`. -/
theorem CreateTodoItem_bound {σ : Type} (db : DB σ) (r : Request) (s : σ) (v : TodoItemModel)
    (hb : ShouldBindJSON r.body = .ok v) :
    (CreateTodoItem db r s).calls = [.Create v] ∧
    (CreateTodoItem db r s).db = (db.Create v s).db ∧
    ((db.Create v s).Error = none →
      (CreateTodoItem db r s).status = 200 ∧
      (CreateTodoItem db r s).body = .H [("data", .item (db.Create v s).value)]) ∧
    ((db.Create v s).Error ≠ none →
      (CreateTodoItem db r s).status = 500 ∧
      (CreateTodoItem db r s).body = .H [("error", .str "Failed to create todo item")]) := by
  unfold CreateTodoItem
  simp only [hb]
  cases hc : (db.Create ⟨v.ID, v.Title, v.Completed⟩ s).Error <;>
    simp_all [StatusOK, StatusInternalServerError]

/-- What `UpdateTodoItem` leaves on the opened handle once the path id is
parsed to `n` and the body bound to `v`. -/
theorem UpdateTodoItem_bound (r : Request) (s : Store) (n : Int) (v : TodoItemModel)
    (ha : Atoi r.id = .ok n) (hb : ShouldBind r = .ok v) :
    UpdateTodoItem NewDB r s =
      ⟨200, .H [("data", .bool true)],
        ⟨s.rows.map fun x => if selects n v x then assign v x else x, s.seq⟩,
        [.Updates n v]⟩ := by
  simp [UpdateTodoItem, ha, hb, NewDB, Store.Updates, StatusOK]

/-- What `DeleteTodoItem` leaves on the opened handle once the path id is
parsed to `n` and the body bound to `v`. -/
theorem DeleteTodoItem_bound (r : Request) (s : Store) (n : Int) (v : TodoItemModel)
    (ha : Atoi r.id = .ok n) (hb : ShouldBindJSON r.body = .ok v) :
    DeleteTodoItem NewDB r s =
      ⟨200, .H [("message", .str "Todo item deleted successfully")],
        ⟨s.rows.filter fun x => !selects n v x, s.seq⟩, [.Delete n v]⟩ := by
  simp [DeleteTodoItem, ha, hb, NewDB, Store.Delete, StatusOK]

/-- C3: on the opened handle, when the body binds and the insert succeeds,
`CreateTodoItem` answers 200 with the object whose `data` is the stored row:
a row of the table the handler leaves, with a non-zero id that no row had
before (the body's id when it gave a non-zero one), and the title and
completed of the request (the zero value for a field the body left out).  A
`GetTodoItems` run on that table answers 200 with a slice that holds that
row. -/
theorem create_then_list (s : Store) (id : String) (p : Payload) (v : TodoItemModel)
    (hb : ShouldBindJSON (.object p) = .ok v) (hc : (NewDB.Create v s).Error = none) :
    (CreateTodoItem NewDB ⟨id, .object p, .json⟩ s).status = 200 ∧
    ∃ row : TodoItemModel,
      (CreateTodoItem NewDB ⟨id, .object p, .json⟩ s).body = .H [("data", .item row)] ∧
      row ∈ (CreateTodoItem NewDB ⟨id, .object p, .json⟩ s).db.rows ∧
      row.ID ≠ 0 ∧ (∀ i, p.id = some i → i ≠ 0 → row.ID = i) ∧
      (∀ x ∈ s.rows, x.ID ≠ row.ID) ∧
      row.Title = p.title.getD "" ∧ row.Completed = p.completed.getD false ∧
      ∀ r : Request,
        (GetTodoItems NewDB r (CreateTodoItem NewDB ⟨id, .object p, .json⟩ s).db).status = 200 ∧
        ∃ todos : List TodoItemModel,
          (GetTodoItems NewDB r (CreateTodoItem NewDB ⟨id, .object p, .json⟩ s).db).body =
            .slice todos ∧
          row ∈ todos ∧ ∀ x ∈ s.rows, x ∈ todos := by
  have hv := ShouldBindJSON_object p v hb
  obtain ⟨-, hdb, hok, -⟩ := CreateTodoItem_bound NewDB ⟨id, .object p, .json⟩ s v hb
  obtain ⟨hst, hbody⟩ := hok hc
  obtain ⟨hrows, hne, hgiven, hfresh, htitle, hcompleted⟩ := Create_ok v s hc
  have hrows2 : (CreateTodoItem NewDB ⟨id, .object p, .json⟩ s).db.rows =
      s.rows ++ [(Store.Create v s).value] := by rw [hdb]; exact hrows
  refine ⟨hst, (Store.Create v s).value, hbody, ?_, hne, ?_, hfresh, ?_, ?_, ?_⟩
  · rw [hrows2]; simp
  · intro i hi hi0
    apply (hgiven _).trans <;> simp [hv, hi, hi0]
  · rw [htitle, hv]
  · rw [hcompleted, hv]
  · intro r
    refine ⟨rfl, (CreateTodoItem NewDB ⟨id, .object p, .json⟩ s).db.rows, rfl, ?_, ?_⟩
    · rw [hrows2]; simp
    · intro x hx; rw [hrows2]; simp [hx]

/-- Witness for C3: a title-and-completed body created in a table of one
row. -/
theorem create_then_list_witness :
    ShouldBindJSON (.object ⟨none, some "milk", some true⟩) = .ok ⟨0, "milk", true⟩ ∧
    (NewDB.Create ⟨0, "milk", true⟩ ⟨[⟨1, "a", false⟩], 1⟩).Error = none ∧
    (CreateTodoItem NewDB ⟨"", .object ⟨none, some "milk", some true⟩, .json⟩
      ⟨[⟨1, "a", false⟩], 1⟩).body = .H [("data", .item ⟨2, "milk", true⟩)] ∧
    (GetTodoItems NewDB ⟨"", .invalid "", .json⟩
      (CreateTodoItem NewDB ⟨"", .object ⟨none, some "milk", some true⟩, .json⟩
        ⟨[⟨1, "a", false⟩], 1⟩).db).body = .slice [⟨1, "a", false⟩, ⟨2, "milk", true⟩] ∧
    (CreateTodoItem NewDB ⟨"", .object ⟨none, some "milk", some true⟩, .json⟩
      ⟨[⟨1, "a", false⟩], 1⟩).status = 200 :=
  ⟨by decide, by decide, by decide, by decide,
    (create_then_list ⟨[⟨1, "a", false⟩], 1⟩ "" ⟨none, some "milk", some true⟩
      ⟨0, "milk", true⟩ (by decide) (by decide)).1⟩

/-- C4: the handler at the input where it misses the claim.  The table holds
the row with id 1, the path id is `1` and the body carries the id 2.
`DeleteTodoItem` answers 200 with the deleted-successfully message, yet the
row with id 1 is still in the table and in the following list. -/
theorem delete_with_other_body_id_keeps_row :
    (DeleteTodoItem NewDB ⟨"1", .object ⟨some 2, none, none⟩, .json⟩
      ⟨[⟨1, "a", false⟩], 1⟩).status = 200 ∧
    (DeleteTodoItem NewDB ⟨"1", .object ⟨some 2, none, none⟩, .json⟩
      ⟨[⟨1, "a", false⟩], 1⟩).body =
      .H [("message", .str "Todo item deleted successfully")] ∧
    (DeleteTodoItem NewDB ⟨"1", .object ⟨some 2, none, none⟩, .json⟩
      ⟨[⟨1, "a", false⟩], 1⟩).db.rows = [⟨1, "a", false⟩] ∧
    (GetTodoItems NewDB ⟨"", .invalid "", .json⟩
      (DeleteTodoItem NewDB ⟨"1", .object ⟨some 2, none, none⟩, .json⟩
        ⟨[⟨1, "a", false⟩], 1⟩).db).body = .slice [⟨1, "a", false⟩] := by
  decide

/-- Deleting with an agreeing body: on the opened handle, for a table holding a
row with id `n` and a body that binds with an id that is absent, zero or `n`, `DeleteTodoItem`
with path id `n` answers 200 with the deleted-successfully message; the table
it leaves is the old one without the rows of id `n`, so it holds no row with
id `n`, is shorter than before, and a following `GetTodoItems` answers a slice
without such a row. -/
theorem delete_removes_row (s : Store) (r : Request) (n : Int) (v : TodoItemModel)
    (ha : Atoi r.id = .ok n) (hb : ShouldBindJSON r.body = .ok v)
    (hid : v.ID = 0 ∨ v.ID = n) (hrow : hasID s.rows n = true) :
    (DeleteTodoItem NewDB r s).status = 200 ∧
    (DeleteTodoItem NewDB r s).body =
      .H [("message", .str "Todo item deleted successfully")] ∧
    (DeleteTodoItem NewDB r s).db.rows = s.rows.filter (fun x => x.ID ≠ n) ∧
    hasID (DeleteTodoItem NewDB r s).db.rows n = false ∧
    (DeleteTodoItem NewDB r s).db.rows.length < s.rows.length ∧
    ∀ q : Request, ∃ todos : List TodoItemModel,
      (GetTodoItems NewDB q (DeleteTodoItem NewDB r s).db).body = .slice todos ∧
      ∀ x ∈ todos, x.ID ≠ n := by
  rw [DeleteTodoItem_bound r s n v ha hb]
  have hfilter : (s.rows.filter fun x => !selects n v x) = s.rows.filter (fun x => x.ID ≠ n) := by
    apply List.filter_congr
    intro x _
    rw [selects_eq_of_agree n v x hid]
    by_cases hx : x.ID = n <;> simp [hx]
  simp only [hfilter]
  have hgone : ∀ x ∈ s.rows.filter (fun x => x.ID ≠ n), x.ID ≠ n := by
    intro x hx
    simpa using (List.mem_filter.mp hx).2
  refine ⟨trivial, trivial, trivial, (hasID_eq_false_iff _ n).mpr hgone, ?_,
    fun q => ⟨_, rfl, hgone⟩⟩
  rw [List.length_filter_lt_length_iff_exists]
  obtain ⟨x, hx, hxn⟩ := (hasID_eq_true_iff s.rows n).mp hrow
  exact ⟨x, hx, by simp [hxn]⟩

/-- An instance of deleting with an agreeing body: the row with id 1 deleted
with a body whose id is absent. -/
theorem delete_removes_row_witness :
    Atoi "1" = .ok 1 ∧
    ShouldBindJSON (.object ⟨none, some "x", none⟩) = .ok ⟨0, "x", false⟩ ∧
    hasID [⟨1, "a", false⟩, ⟨2, "b", true⟩] 1 = true ∧
    (DeleteTodoItem NewDB ⟨"1", .object ⟨none, some "x", none⟩, .json⟩
      ⟨[⟨1, "a", false⟩, ⟨2, "b", true⟩], 2⟩).db.rows = [⟨2, "b", true⟩] ∧
    hasID (DeleteTodoItem NewDB ⟨"1", .object ⟨none, some "x", none⟩, .json⟩
      ⟨[⟨1, "a", false⟩, ⟨2, "b", true⟩], 2⟩).db.rows 1 = false :=
  ⟨by decide, by decide, by decide, by decide,
    (delete_removes_row ⟨[⟨1, "a", false⟩, ⟨2, "b", true⟩], 2⟩
      ⟨"1", .object ⟨none, some "x", none⟩, .json⟩ 1 ⟨0, "x", false⟩ (by decide) (by decide)
      (Or.inl rfl) (by decide)).2.2.2.1⟩

/-- C5, as the claim states it, fails: the body provides only
`completed = true` and the path id is that of the row, but the request comes
without a JSON content type.  `c.ShouldBind` then takes the form binding, the
body is not read, and `UpdateTodoItem` answers 200 with `true` under `data`
while the row is not completed. -/
theorem update_without_json_content_type_sets_nothing :
    ShouldBind ⟨"1", .object ⟨none, none, some true⟩, .plain⟩ = .ok ⟨0, "", false⟩ ∧
    (UpdateTodoItem NewDB ⟨"1", .object ⟨none, none, some true⟩, .plain⟩
      ⟨[⟨1, "a", false⟩], 1⟩).status = 200 ∧
    (UpdateTodoItem NewDB ⟨"1", .object ⟨none, none, some true⟩, .plain⟩
      ⟨[⟨1, "a", false⟩], 1⟩).body = .H [("data", .bool true)] ∧
    (UpdateTodoItem NewDB ⟨"1", .object ⟨none, none, some true⟩, .plain⟩
      ⟨[⟨1, "a", false⟩], 1⟩).db.rows = [⟨1, "a", false⟩] := by
  decide

/-- C5, amended: on the opened handle, `UpdateTodoItem` with path id `n` and a
body sent as `application/json` that provides only `completed = true` answers
200 with the object whose `data`
is `true`; in the table it leaves, every row with id `n` has `completed` set
and keeps its id and title, and every other row is as it was. -/
theorem update_completed_true_frame (s : Store) (idText : String) (n : Int)
    (ha : Atoi idText = .ok n) :
    (UpdateTodoItem NewDB ⟨idText, .object ⟨none, none, some true⟩, .json⟩ s).status = 200 ∧
    (UpdateTodoItem NewDB ⟨idText, .object ⟨none, none, some true⟩, .json⟩ s).body =
      .H [("data", .bool true)] ∧
    (UpdateTodoItem NewDB ⟨idText, .object ⟨none, none, some true⟩, .json⟩ s).db.rows =
      s.rows.map (fun x => if x.ID = n then ⟨x.ID, x.Title, true⟩ else x) ∧
    (UpdateTodoItem NewDB ⟨idText, .object ⟨none, none, some true⟩, .json⟩ s).db.seq = s.seq := by
  rw [UpdateTodoItem_bound ⟨idText, .object ⟨none, none, some true⟩, .json⟩ s n ⟨0, "", true⟩ ha
    rfl]
  refine ⟨rfl, rfl, ?_, rfl⟩
  apply List.map_congr_left
  intro x _
  by_cases hx : x.ID = n <;> simp [selects, assign, hx]

/-- Witness for C5, amended: the row with id 1 of a two-row table is completed. -/
theorem update_completed_true_frame_witness :
    Atoi "1" = .ok 1 ∧
    (UpdateTodoItem NewDB ⟨"1", .object ⟨none, none, some true⟩, .json⟩
      ⟨[⟨1, "a", false⟩, ⟨2, "b", false⟩], 2⟩).db.rows =
      [⟨1, "a", true⟩, ⟨2, "b", false⟩] ∧
    (UpdateTodoItem NewDB ⟨"1", .object ⟨none, none, some true⟩, .json⟩
      ⟨[⟨1, "a", false⟩, ⟨2, "b", false⟩], 2⟩).status = 200 :=
  ⟨by decide, by decide,
    (update_completed_true_frame ⟨[⟨1, "a", false⟩, ⟨2, "b", false⟩], 2⟩ "1" 1
      (by decide)).1⟩

/-- C6, as the claim states it, fails: on the row `(1, a, completed)` a body
providing `completed = false` answers 200 and leaves `completed` set, and a
body providing the empty title answers 200 and leaves the title `a`. -/
theorem update_skips_zero_values :
    ((UpdateTodoItem NewDB ⟨"1", .object ⟨none, none, some false⟩, .json⟩
        ⟨[⟨1, "a", true⟩], 1⟩).status = 200 ∧
      (UpdateTodoItem NewDB ⟨"1", .object ⟨none, none, some false⟩, .json⟩
        ⟨[⟨1, "a", true⟩], 1⟩).db.rows = [⟨1, "a", true⟩]) ∧
    ((UpdateTodoItem NewDB ⟨"1", .object ⟨none, some "", none⟩, .json⟩
        ⟨[⟨1, "a", true⟩], 1⟩).status = 200 ∧
      (UpdateTodoItem NewDB ⟨"1", .object ⟨none, some "", none⟩, .json⟩
        ⟨[⟨1, "a", true⟩], 1⟩).db.rows = [⟨1, "a", true⟩]) := by
  decide

/-- C6, amended: on the opened handle, for a body sent as `application/json`
that binds with an id that is absent, zero or `n`, `UpdateTodoItem` with path id `n` answers 200 and
leaves the table in which every row with id `n` has the body's title when the
body provides a non-empty one, is completed when the body provides
`completed = true`, and keeps its id and every field the body leaves out or
provides as the zero value (the empty title, `completed = false`); the other
rows are as they were. -/
theorem update_applies_nonzero_fields (s : Store) (idText : String) (n : Int) (p : Payload)
    (v : TodoItemModel) (ha : Atoi idText = .ok n) (hb : ShouldBind ⟨idText, .object p, .json⟩ = .ok v)
    (hid : p.id = none ∨ p.id = some 0 ∨ p.id = some n) :
    (UpdateTodoItem NewDB ⟨idText, .object p, .json⟩ s).status = 200 ∧
    (UpdateTodoItem NewDB ⟨idText, .object p, .json⟩ s).body = .H [("data", .bool true)] ∧
    (UpdateTodoItem NewDB ⟨idText, .object p, .json⟩ s).db.rows =
      s.rows.map (fun x =>
        if x.ID = n then
          ⟨x.ID,
            match p.title with
            | some t => if t = "" then x.Title else t
            | none => x.Title,
            match p.completed with
            | some true => true
            | _ => x.Completed⟩
        else x) := by
  have hv := ShouldBindJSON_object p v hb
  rw [UpdateTodoItem_bound ⟨idText, .object p, .json⟩ s n v ha hb]
  have hvid : v.ID = 0 ∨ v.ID = n := by
    rcases hid with h | h | h <;> simp [hv, h]
  refine ⟨rfl, rfl, ?_⟩
  apply List.map_congr_left
  intro x _
  rw [selects_eq_of_agree n v x hvid]
  by_cases hx : x.ID = n
  · simp only [hx, beq_self_eq_true, if_true, assign, hv]
    rcases p with ⟨pid, _ | t, _ | _ | _⟩ <;> simp
  · simp [hx]

/-- Witness for C6, amended: a new title and `completed = true` applied to the
row with id 1. -/
theorem update_applies_nonzero_fields_witness :
    Atoi "1" = .ok 1 ∧
    ShouldBind ⟨"1", .object ⟨some 1, some "b", some true⟩, .json⟩ = .ok ⟨1, "b", true⟩ ∧
    (UpdateTodoItem NewDB ⟨"1", .object ⟨some 1, some "b", some true⟩, .json⟩
      ⟨[⟨1, "a", false⟩, ⟨2, "c", false⟩], 2⟩).db.rows =
      [⟨1, "b", true⟩, ⟨2, "c", false⟩] ∧
    (UpdateTodoItem NewDB ⟨"1", .object ⟨some 1, some "b", some true⟩, .json⟩
      ⟨[⟨1, "a", false⟩, ⟨2, "c", false⟩], 2⟩).status = 200 :=
  ⟨by decide, by decide, by decide,
    (update_applies_nonzero_fields ⟨[⟨1, "a", false⟩, ⟨2, "c", false⟩], 2⟩ "1" 1
      ⟨some 1, some "b", some true⟩ ⟨1, "b", true⟩ (by decide) (by decide)
      (Or.inr (Or.inr rfl))).1⟩

/-- C9, as the claim states it, fails: the body is a JSON object with
`completed` and no title, the table is empty.  `CreateTodoItem` answers 200
and the table holds a new row, with the empty title. -/
theorem create_without_title_inserts :
    (CreateTodoItem NewDB ⟨"", .object ⟨none, none, some true⟩, .json⟩ ⟨[], 0⟩).status = 200 ∧
    (CreateTodoItem NewDB ⟨"", .object ⟨none, none, some true⟩, .json⟩ ⟨[], 0⟩).body =
      .H [("data", .item ⟨1, "", true⟩)] ∧
    (CreateTodoItem NewDB ⟨"", .object ⟨none, none, some true⟩, .json⟩ ⟨[], 0⟩).db.rows =
      [⟨1, "", true⟩] := by
  decide

/-- C9, amended: for a body that is a JSON object without a title and binds
to `v`, the title of `v` is empty and `CreateTodoItem` does not answer 400: it
calls `Create` with `v` and answers 200 with the stored row when the insert
succeeds, 500 when it fails; on the opened handle a successful insert leaves
the stored row, with the empty title, in the table. -/
theorem create_without_title_binds_empty {σ : Type} (db : DB σ) (s : σ) (id : String)
    (p : Payload) (v : TodoItemModel) (ht : p.title = none)
    (hb : ShouldBindJSON (.object p) = .ok v) :
    v.Title = "" ∧
    (CreateTodoItem db ⟨id, .object p, .json⟩ s).status ≠ 400 ∧
    (CreateTodoItem db ⟨id, .object p, .json⟩ s).calls = [.Create v] ∧
    ((db.Create v s).Error = none →
      (CreateTodoItem db ⟨id, .object p, .json⟩ s).status = 200 ∧
      (CreateTodoItem db ⟨id, .object p, .json⟩ s).body = .H [("data", .item (db.Create v s).value)]) ∧
    ((db.Create v s).Error ≠ none → (CreateTodoItem db ⟨id, .object p, .json⟩ s).status = 500) ∧
    ∀ t : Store, (NewDB.Create v t).Error = none →
      (NewDB.Create v t).value.Title = "" ∧
      (NewDB.Create v t).value ∈ (CreateTodoItem NewDB ⟨id, .object p, .json⟩ t).db.rows := by
  have hv := ShouldBindJSON_object p v hb
  have hbound := fun (τ : Type) (d : DB τ) (t : τ) =>
    CreateTodoItem_bound d ⟨id, .object p, .json⟩ t v hb
  obtain ⟨hcalls, -, hok, herr⟩ := hbound σ db s
  have htitle : v.Title = "" := by rw [hv, ht]; rfl
  refine ⟨htitle, ?_, hcalls, hok, fun h => (herr h).1, ?_⟩
  · cases hc : (db.Create v s).Error with
    | none => rw [(hok hc).1]; decide
    | some e => rw [(herr (by simp [hc])).1]; decide
  · intro t hc
    obtain ⟨hrows, -, -, -, hT, -⟩ := Create_ok v t hc
    refine ⟨hT.trans htitle, ?_⟩
    rw [(hbound Store NewDB t).2.1]
    show (Store.Create v t).value ∈ (Store.Create v t).db.rows
    rw [hrows]; simp

/-- Witness for C9, amended: an object with `completed` only, created in an
empty table. -/
theorem create_without_title_binds_empty_witness :
    ShouldBindJSON (.object ⟨none, none, some true⟩) = .ok ⟨0, "", true⟩ ∧
    (CreateTodoItem NewDB ⟨"", .object ⟨none, none, some true⟩, .json⟩ ⟨[], 0⟩).calls =
      [.Create ⟨0, "", true⟩] ∧
    (CreateTodoItem NewDB ⟨"", .object ⟨none, none, some true⟩, .json⟩ ⟨[], 0⟩).status ≠ 400 :=
  ⟨by decide, by decide,
    (create_without_title_binds_empty NewDB ⟨[], 0⟩ "" ⟨none, none, some true⟩
      ⟨0, "", true⟩ rfl (by decide)).2.1⟩

/-- On a working connection and a body that ends in `io.EOF`, `io.Copy` uses
up the body, appends all of it to what the writer holds, returns no error and
leaves the status the client receives at what it was. -/
theorem Copy_ok (chunks : List (List Byte)) (w : ResponseWriter) (hw : w.broken = none) :
    ∃ w1 : ResponseWriter,
      Copy w chunks none = (w1, ⟨[], none⟩, none) ∧ w1.body = w.body ++ chunks.flatten ∧
      w1.broken = none ∧ w1.status = w.status := by
  induction chunks generalizing w with
  | nil => exact ⟨w, rfl, by simp, hw, rfl⟩
  | cons c cs ih =>
    by_cases hc : c = []
    · obtain ⟨w1, h1, h2, h3, h4⟩ := ih w hw
      exact ⟨w1, by simp [Copy, hc, h1], by simp [hc, h2], h3, h4⟩
    · have hwrite : w.Write c =
          (⟨(w.WriteHeader StatusOK).wroteHeader, w.body ++ c, none⟩, none) := by
        unfold ResponseWriter.Write ResponseWriter.WriteHeader
        cases hh : w.wroteHeader <;> simp [hw]
      obtain ⟨w1, h1, h2, h3, h4⟩ :=
        ih ⟨(w.WriteHeader StatusOK).wroteHeader, w.body ++ c, none⟩ rfl
      refine ⟨w1, by simp [Copy, hc, hwrite, h1], by simp [h2], h3, ?_⟩
      rw [h4]
      unfold ResponseWriter.status ResponseWriter.WriteHeader
      cases hh : w.wroteHeader <;> simp [hh]

/-- C7: for a request whose body reads to `io.EOF` without error and a fresh
response writer on a working connection, `ServeHTTP` writes exactly the bytes
of the request body, the client receives status 200, nothing is logged, and
the `io.ReadAll` that follows the copy finds the body used up: it reads no
byte and returns no error.  The handler is registered at `/user`. -/
theorem echo_roundtrip (w : ResponseWriter) (r : Body) (hr : r.fail = none)
    (hw : w.broken = none) (hfresh : w.wroteHeader = none ∧ w.body = []) :
    (ServeHTTP w r).w.body = r.pending.flatten ∧
    (ServeHTTP w r).w.status = 200 ∧
    (ServeHTTP w r).w.status ≠ 500 ∧
    (ServeHTTP w r).log = [] ∧
    (ReadAll (Copy w r.pending r.fail).2.1).2 = ([], none) ∧
    Pattern = "/user" := by
  obtain ⟨w1, h1, h2, -, h4⟩ := Copy_ok r.pending w hw
  have hstatus : w.status = 200 := by simp [ResponseWriter.status, hfresh.1, StatusOK]
  have hserve : ServeHTTP w r = ⟨w1, ⟨[], none⟩, []⟩ := by
    simp [ServeHTTP, hr, h1, ReadAll]
  rw [hserve, hr, h1]
  refine ⟨by simp [h2, hfresh.2], by rw [h4, hstatus], by rw [h4, hstatus]; decide, rfl, ?_,
    rfl⟩
  simp [ReadAll]

/-- Witness for C7: the body `hello`, delivered in one read, is answered with
`hello` and status 200. -/
theorem echo_roundtrip_witness :
    (ServeHTTP ⟨none, [], none⟩ ⟨[hello], none⟩).w.body = hello ∧
    (ServeHTTP ⟨none, [], none⟩ ⟨[hello], none⟩).w.status = 200 ∧
    (ServeHTTP ⟨none, [], none⟩ ⟨[hello], none⟩).w.body = [hello].flatten :=
  ⟨by decide, by decide,
    (echo_roundtrip ⟨none, [], none⟩ ⟨[hello], none⟩ rfl rfl ⟨rfl, rfl⟩).1⟩

end FxExample
